import Mathlib

/-!
Verification of the minecraft-god server core against its specification.

Shallow embedding of the Python source under `server/`:
pure functions become Lean functions, Python exceptions become `Except`,
Python `None` returns become `Option`, dict-shaped records become
structures.  Timestamps are abstract strings or integers (wall-clock
values are inputs, never read from a clock).  JSON parsing of LLM
tool-call argument strings is abstracted: tool calls arrive as typed
payloads, the per-field validators are embedded faithfully.
-/

namespace MinecraftGod

/-! ### server/config.py -/

/-- Prayer keywords that trigger immediate Kind God response (config.py). -/
def PRAYER_KEYWORDS : List String :=
  ["god", "please", "help", "pray", "prayer", "mercy", "save", "lord"]

/-- Herald keywords (config.py). -/
def HERALD_KEYWORDS : List String := ["herald", "bard", "guide"]

/-- Dig God keywords (config.py). -/
def DIG_KEYWORDS : List String := ["dig", "hole", "tunnel", "excavate", "shaft", "staircase"]

/-- Remember keywords (config.py). -/
def REMEMBER_KEYWORDS : List String := ["remember"]

/-- Memory ceiling, default of the MEMORY_MAX_ENTRIES env knob (config.py). -/
def MEMORY_MAX_ENTRIES : Nat := 15

/-- Consolidation interval in seconds, default 3 hours (config.py). -/
def MEMORY_CONSOLIDATION_INTERVAL_SECONDS : Int := 3 * 3600

/-- Cap on tool calls processed per LLM response (config.py). -/
def MAX_TOOL_CALLS_PER_RESPONSE : Nat := 5

/-! ### Python string primitives used by the embedded code -/

/-- Python str.lower() restricted to ASCII case folding, which is all the
embedded call sites feed it (keywords, player names, item ids). -/
def strLower (s : String) : String := ⟨s.data.map Char.toLower⟩

/-- Python str.strip(): drop whitespace from both ends. -/
def pyStrip (s : String) : String :=
  ⟨((s.data.dropWhile Char.isWhitespace).reverse.dropWhile Char.isWhitespace).reverse⟩

/-- Python s[:n] — slice of the first n code points. -/
def pyTake (s : String) (n : Nat) : String := ⟨s.data.take n⟩

/-- Contiguous sublist test: does sub occur inside l. -/
def listContainsSub (sub : List Char) : List Char → Bool
  | [] => sub.isEmpty
  | c :: l => sub.isPrefixOf (c :: l) || listContainsSub sub l

/-- Python "kw in s" — substring containment. -/
def containsKw (s kw : String) : Bool := listContainsSub kw.data s.data

/-- Python "\n".join(lines). -/
def joinLines : List String → String
  | [] => ""
  | [l] => l
  | l :: ls => l ++ "\n" ++ joinLines ls

/-- Left-to-right removal of every non-overlapping occurrence of pattern,
fuelled by the input length so the recursion is structural (every step
consumes at least one character, so the fuel never runs out when it
starts at the input length and the pattern is nonempty). -/
def pyRemoveAux (pattern : List Char) : Nat → List Char → List Char
  | _, [] => []
  | 0, l => l
  | fuel + 1, c :: rest =>
      if pattern.isPrefixOf (c :: rest) then
        pyRemoveAux pattern fuel (rest.drop (pattern.length - 1))
      else c :: pyRemoveAux pattern fuel rest

/-- Python s.replace(pattern, "") for a nonempty pattern. -/
def pyRemove (s pattern : String) : String :=
  ⟨pyRemoveAux pattern.data s.data.length s.data⟩

/-! ### server/prayer_queue.py -/

/-- Retry ceiling for divine requests (prayer_queue.py line 19). -/
def MAX_ATTEMPTS : Nat := 5

/-- All keywords that trigger divine requests (prayer_queue.py line 24):
PRAYER_KEYWORDS | HERALD_KEYWORDS | DIG_KEYWORDS | REMEMBER_KEYWORDS. -/
def _ALL_DIVINE_KEYWORDS : List String :=
  PRAYER_KEYWORDS ++ HERALD_KEYWORDS ++ DIG_KEYWORDS ++ REMEMBER_KEYWORDS

/-- is_divine_request (prayer_queue.py lines 27-30): any divine keyword
occurs in the lower-cased message. -/
def is_divine_request (message : String) : Bool :=
  _ALL_DIVINE_KEYWORDS.any (fun kw => containsKw (strLower message) kw)

/-- classify_divine_request (prayer_queue.py lines 33-51): priority
remember > dig > prayer > herald, None when nothing matches. -/
def classify_divine_request (message : String) : Option String :=
  if REMEMBER_KEYWORDS.any (fun kw => containsKw (strLower message) kw) then some "remember"
  else if DIG_KEYWORDS.any (fun kw => containsKw (strLower message) kw) then some "dig"
  else if PRAYER_KEYWORDS.any (fun kw => containsKw (strLower message) kw) then some "prayer"
  else if HERALD_KEYWORDS.any (fun kw => containsKw (strLower message) kw) then some "herald"
  else none

/-- DivineRequest (prayer_queue.py lines 54-63).  The snapshot fields
(timestamp, player_snapshot, recent_chat) are carried opaquely by the
queue and requeue logic and are elided here; requeue reads and writes
only the attempts counter. -/
structure DivineRequest where
  player : String
  message : String
  request_type : String
  attempts : Nat
deriving DecidableEq, Repr

/-- DivineRequestQueue.requeue (prayer_queue.py lines 163-178).  The
asyncio queue is modelled as the list of queued requests in FIFO order
(head = next to dequeue).  Python mutates request.attempts in place;
here the updated request is returned alongside the return value and the
queue after the call. -/
def requeue (queue : List DivineRequest) (request : DivineRequest) :
    Bool × List DivineRequest × DivineRequest :=
  let request := { request with attempts := request.attempts + 1 }
  if request.attempts < MAX_ATTEMPTS then
    (true, queue ++ [request], request)
  else
    (false, queue, request)

/-! ### server/memory.py -/

/-- A stored memory record: the dicts built by consolidate
(memory.py lines 217-221). -/
structure MemRecord where
  created : String
  updated : String
  content : String
deriving DecidableEq, Repr

/-- An entry of KindGodMemory.memories: consolidated entries are dicts;
a legacy on-disk format stored plain strings, and format_for_prompt
handles both (memory.py line 123). -/
inductive MemEntry
  | record (r : MemRecord)
  | plain (s : String)
deriving DecidableEq, Repr

/-- Content rendered for an entry: m.get("content", "") for dicts,
str(m) otherwise (memory.py line 123). -/
def entryContent : MemEntry → String
  | .record r => r.content
  | .plain s => s

/-- KindGodMemory.format_for_prompt (memory.py lines 116-133). -/
def format_for_prompt (memories : List MemEntry) : String :=
  if memories = [] then ""
  else
    "\n\n=== YOUR MEMORIES ===\n" ++
    "These are things you have chosen to remember about your world and its " ++
    "people. They persist across time. You wrote these yourself during past " ++
    "reflections.\n\n" ++
    joinLines (memories.map (fun m => "- " ++ entryContent m)) ++
    "\n=== END MEMORIES ==="

/-- The old_contents lookup of consolidate (memory.py lines 206-210):
a dict comprehension over the dict-typed old entries keyed by content,
so among duplicates the last one wins. -/
def lastOldRecord (memories : List MemEntry) (content : String) : Option MemRecord :=
  (memories.filterMap (fun m => match m with | .record r => some r | .plain _ => none)).reverse.find?
    (fun r => r.content = content)

/-- created timestamp carried into a rebuilt record:
old_contents.get(content, now) (memory.py line 218). -/
def carriedCreated (memories : List MemEntry) (now content : String) : String :=
  ((lastOldRecord memories content).map (fun r => r.created)).getD now

/-- The post-parse update step of KindGodMemory.consolidate
(memory.py lines 200-223): clamp the parsed strings to
MEMORY_MAX_ENTRIES, drop blank entries, truncate each to 500 chars,
carry created over for byte-identical content, stamp updated = now.
The LLM call, JSON parsing and their failure paths happen before this
step; a successful consolidate stores exactly this list. -/
def consolidateUpdate (memories : List MemEntry) (memory_strings : List String)
    (now : String) : List MemEntry :=
  (memory_strings.take MEMORY_MAX_ENTRIES).filterMap (fun s =>
    if pyStrip s = "" then none
    else
      some (.record { created := carriedCreated memories now (pyTake (pyStrip s) 500),
                      updated := now,
                      content := pyTake (pyStrip s) 500 }))

/-! ### server/commands.py -/

/-- Allowlisted command prefixes (commands.py lines 21-24). -/
def ALLOWED_COMMANDS : List String :=
  ["summon", "say", "tellraw", "weather", "effect", "tp", "teleport",
   "give", "clear", "playsound", "time", "difficulty", "setblock", "fill"]

/-- Dangerous items that must never be given (commands.py lines 35-40). -/
def BLOCKED_ITEMS : List String :=
  ["command_block", "repeating_command_block", "chain_command_block",
   "command_block_minecart", "barrier", "structure_block", "structure_void",
   "light", "allow", "deny", "border_block", "jigsaw",
   "bedrock", "end_portal_frame", "end_portal"]

/-- Valid target selectors (commands.py line 44). -/
def ALLOWED_SELECTORS : List String := ["@a", "@s", "@p"]

/-- Valid mob types (commands.py lines 47-59). -/
def VALID_MOBS : List String :=
  ["zombie", "skeleton", "creeper", "spider", "cave_spider", "silverfish",
   "enderman", "witch", "phantom", "slime", "magma_cube", "blaze",
   "wither_skeleton", "piglin_brute", "hoglin", "ghast",
   "wolf", "iron_golem", "bee", "piglin",
   "cow", "sheep", "pig", "chicken", "rabbit", "horse", "cat", "fox",
   "axolotl", "frog", "turtle",
   "lightning_bolt", "villager", "wandering_trader"]

/-- Valid status effects (commands.py lines 62-69). -/
def VALID_EFFECTS : List String :=
  ["speed", "slowness", "haste", "mining_fatigue", "strength",
   "instant_health", "instant_damage", "jump_boost", "nausea",
   "regeneration", "resistance", "fire_resistance", "water_breathing",
   "invisibility", "blindness", "night_vision", "hunger", "weakness",
   "poison", "levitation", "slow_falling", "darkness", "absorption",
   "saturation", "glowing"]

/-- Character class of _PLAYER_NAME_RE: [a-zA-Z0-9_]. -/
def isNameChar (c : Char) : Bool :=
  ('a' ≤ c && c ≤ 'z') || ('A' ≤ c && c ≤ 'Z') || ('0' ≤ c && c ≤ '9') || c = '_'

/-- _PLAYER_NAME_RE full match: ^[a-zA-Z0-9_]{3,16}$ (commands.py line 72). -/
def playerNameMatches (s : String) : Bool :=
  decide (3 ≤ s.length) && decide (s.length ≤ 16) && s.data.all isNameChar

/-- _COORD_RE full match: ^[~^0-9. -]+$ (commands.py line 74). -/
def coordMatches (s : String) : Bool :=
  decide (s ≠ "") &&
    s.data.all (fun c =>
      c = '~' || c = '^' || ('0' ≤ c && c ≤ '9') || c = '.' || c = ' ' || c = '-')

/-- _ITEM_NAME_RE full match: ^[a-z0-9_]+$ (commands.py line 76). -/
def itemNameMatches (s : String) : Bool :=
  decide (s ≠ "") &&
    s.data.all (fun c => ('a' ≤ c && c ≤ 'z') || ('0' ≤ c && c ≤ '9') || c = '_')

/-- _check_player_target (commands.py lines 104-121).  Raising ValueError
is modelled as Except.error carrying the message; the sorted-name joins
inside the messages are elided (message text is not load-bearing). -/
def _check_player_target (target : String) (whitelist : List String) :
    Except String Unit :=
  if target ∈ ALLOWED_SELECTORS then .ok ()
  else if ¬ playerNameMatches target then
    .error ("Invalid player target " ++ target ++ ". Use a player name or one of: @a, @p, @s")
  else if whitelist ≠ [] then
    if strLower target ∉ whitelist.map strLower then
      .error ("Player " ++ target ++ " is not on the whitelist.")
    else .ok ()
  else .ok ()

/-- A validated command dict {"command": ..., "target_player": ...}
(commands.py line 530).  The structured build_schematic and
undo_last_build dicts carry a "type" key instead. -/
inductive CommandDict
  | cmd (command : String) (target_player : Option String)
  | typed (type : String)
deriving DecidableEq, Repr

/-- First word of cmd_str.strip().split() (commands.py line 521):
the leading run of non-whitespace after stripping.  Python raises
IndexError on an all-whitespace string; this returns "" there, which is
equally not allowlisted — no generated command string is all-whitespace. -/
def firstWord (s : String) : String :=
  ⟨(s.data.dropWhile Char.isWhitespace).takeWhile (fun c => !c.isWhitespace)⟩

/-- _validate_command (commands.py lines 519-522). -/
def _validate_command (cmd_str : String) : Bool :=
  strLower (firstWord cmd_str) ∈ ALLOWED_COMMANDS

/-- _cmd (commands.py lines 525-530): None when the prefix is not
allowlisted. -/
def _cmd (command : String) (target_player : Option String := none) :
    Option CommandDict :=
  if _validate_command command then some (.cmd command target_player) else none

/-- Python max(1, min(int(v), hi)) for an integer v — the clamp pattern
shared by the count/duration validators. -/
def clampLow1 (hi : Int) (v : Int) : Int := max 1 (min v hi)

/-- GiveItemParams.clamp_count (commands.py lines 256-262), integer case. -/
def clamp_count_give_item (v : Int) : Int := clampLow1 64 v

/-- GiveEffectParams.clamp_duration (commands.py lines 208-214), integer case. -/
def clamp_duration_give_effect (v : Int) : Int := clampLow1 120 v

/-- SummonMobParams.clamp_count (commands.py lines 161-167), integer case. -/
def clamp_count_summon (v : Int) : Int := clampLow1 5 v

/-- GiveEffectParams.clamp_amplifier (commands.py lines 216-222), integer case. -/
def clamp_amplifier (v : Int) : Int := max 0 (min v 3)

/-- Identifier normalization shared by item/mob validators:
str(v).lower().replace("minecraft:", "") (commands.py lines 141, 242). -/
def normalizeId (v : String) : String := pyRemove (strLower v) "minecraft:"

/-- TeleportPlayerParams (commands.py lines 324-328): pydantic model with
plain int fields and no range validators of any kind. -/
structure TeleportPlayerParams where
  player : String
  x : Int
  y : Int := 64
  z : Int := 0
deriving DecidableEq, Repr

/-- The teleport_player branch of _translate_one (commands.py lines
497-500) followed by _teleport_player (lines 668-669): whitelist check,
then tp command with the coordinates rendered verbatim. -/
def translate_teleport_player (whitelist : List String)
    (p : TeleportPlayerParams) : Except String (Option CommandDict) :=
  match _check_player_target p.player whitelist with
  | .error e => .error e
  | .ok _ =>
      .ok (_cmd ("tp " ++ p.player ++ " " ++ toString p.x ++ " " ++
                 toString p.y ++ " " ++ toString p.z))

/-- The give_item branch of _translate_one (commands.py lines 477-480):
GiveItemParams validation (normalize item, regex, denylist, clamp count),
whitelist check, then _give_item (line 642-643). -/
def translate_give_item (whitelist : List String) (player item : String)
    (count : Int) : Except String (Option CommandDict) :=
  let item := normalizeId item
  if ¬ itemNameMatches item then
    .error ("Invalid item name " ++ item ++
            ". Item names must be lowercase alphanumeric with underscores.")
  else if item ∈ BLOCKED_ITEMS then
    .error (item ++ " is a restricted item and cannot be given to players.")
  else
    match _check_player_target player whitelist with
    | .error e => .error e
    | .ok _ =>
        .ok (_cmd ("give " ++ player ++ " minecraft:" ++ item ++ " " ++
                   toString (clamp_count_give_item count)))

/-- The give_effect branch of _translate_one (commands.py lines 470-473):
GiveEffectParams validation (normalize + allowlist effect, clamp duration
and amplifier), whitelist check on target, then _give_effect (632-635). -/
def translate_give_effect (whitelist : List String)
    (target_player effect : String) (duration amplifier : Int) :
    Except String (Option CommandDict) :=
  let effect := strLower effect
  if effect ∉ VALID_EFFECTS then
    .error ("Invalid effect " ++ effect ++ ".")
  else
    match _check_player_target target_player whitelist with
    | .error e => .error e
    | .ok _ =>
        .ok (_cmd ("effect give " ++ target_player ++ " minecraft:" ++ effect ++
                   " " ++ toString (clamp_duration_give_effect duration) ++
                   " " ++ toString (clamp_amplifier amplifier)))

/-- The summon_mob branch of _translate_one (commands.py lines 462-466):
SummonMobParams validation (normalize + allowlist mob, coord regex on the
location, clamp count), optional whitelist check, then _summon_mob
(lines 618-625) which emits one summon command per count. -/
def translate_summon_mob (whitelist : List String) (mob_type : String)
    (near_player : Option String) (location : String) (count : Int) :
    Except String (List CommandDict) :=
  let mob := normalizeId mob_type
  if mob ∉ VALID_MOBS then
    .error ("Invalid mob type " ++ mob ++ ".")
  else if ¬ coordMatches location then
    .error ("Invalid location " ++ location ++ ".")
  else
    match (match near_player with
           | some np => _check_player_target np whitelist
           | none => .ok ()) with
    | .error e => .error e
    | .ok _ =>
        .ok (List.replicate (clamp_count_summon count).toNat
              ((_cmd ("summon minecraft:" ++ mob ++ " " ++ location) near_player).toList)
             |>.flatten)

/-- _DIRECTION_OFFSETS (commands.py lines 692-695): unit (dx, dz) per
compass direction. -/
def _DIRECTION_OFFSETS : String → Option (Int × Int)
  | "N" => some (0, -1)
  | "S" => some (0, 1)
  | "E" => some (1, 0)
  | "W" => some (-1, 0)
  | "NE" => some (1, -1)
  | "SE" => some (1, 1)
  | "SW" => some (-1, 1)
  | "NW" => some (-1, -1)
  | _ => none

/-- _DISTANCE_BLOCKS (commands.py line 698). -/
def _DISTANCE_BLOCKS : String → Option Nat
  | "near" => some 10
  | "medium" => some 25
  | "far" => some 50
  | _ => none

/-- Python int(dist * 0.7) on the reachable distances: under IEEE
doubles, int(10*0.7) = 7, int(25*0.7) = 17 and int(50*0.7) = 35, which
(7 * d) / 10 reproduces exactly on 10, 25 and 50 — the only values dist
can take, since _DISTANCE_BLOCKS.get supplies it. -/
def diagBlocks (d : Nat) : Nat := (7 * d) / 10

/-- Player position/facing entry of player_context (commands.py
lines 396-398, 741-742). -/
structure PlayerData where
  x : Int
  y : Int
  z : Int
  facing : String
deriving DecidableEq, Repr

/-- Coordinate resolution core of _build_schematic (commands.py lines
744-763): direction choice (facing when in_front, the validated
direction otherwise, both defaulting to N), distance band lookup, and
the diagonal-vs-cardinal scaling.  The getD fallback on the offsets
lookup is unreachable — compass is always a key at that point. -/
def resolvePlacement (in_front : Bool) (direction distance : String)
    (pd : PlayerData) : Int × Int × Int :=
  let compass :=
    if in_front then (if (_DIRECTION_OFFSETS pd.facing).isSome then pd.facing else "N")
    else (if (_DIRECTION_OFFSETS direction).isSome then direction else "N")
  let dist : Nat := (_DISTANCE_BLOCKS distance).getD 10
  let off := (_DIRECTION_OFFSETS compass).getD (0, -1)
  if off.1.natAbs + off.2.natAbs = 2 then
    (pd.x + off.1 * (diagBlocks dist : Int), pd.y, pd.z + off.2 * (diagBlocks dist : Int))
  else
    (pd.x + off.1 * (dist : Int), pd.y, pd.z + off.2 * (dist : Int))

/-! ### server/events.py and the tick of server/main.py -/

/-- A buffered game event (events.py).  Event dicts carry many payload
keys; only the type tag and, for chat events, the message drive the
buffer control flow, so only those (plus the sender) are modelled. -/
structure GameEvent where
  type : String
  message : String
  player : String
deriving DecidableEq, Repr

/-- Is this a chat event carrying a divine request (events.py line 72). -/
def isDivineChat (e : GameEvent) : Bool :=
  e.type = "chat" && is_divine_request e.message

/-- Effect of EventBuffer.drain_and_summarize on the buffer (events.py
lines 56-79): the accumulated list is copied and cleared under the lock,
then the copy is filtered when filter_divine is set and rendered into
the text digest.  Returns (events used for the digest, buffer after):
the buffer is left empty unconditionally.  The digest rendering itself
(sections of text) is not needed by any claim and is not modelled. -/
def drain_events (events : List GameEvent) (filter_divine : Bool) :
    List GameEvent × List GameEvent :=
  (if filter_divine then events.filter (fun e => !isDivineChat e) else events, [])

/-- Inputs read by _maybe_consolidate (main.py lines 544-566): whether
the consolidation log holds entries, the force flag, current wall-clock
time, the failure-cooldown deadline, and seconds since the last
consolidation (none = never consolidated, Python float inf). -/
structure ConsolidationInputs where
  log_nonempty : Bool
  forced : Bool
  now : Int
  cooldown_until : Int
  seconds_since : Option Int
deriving DecidableEq, Repr

/-- Decision logic of _maybe_consolidate (main.py lines 544-566): skip
on an empty log; fire immediately when forced; otherwise honour the
failure cooldown and the wall-clock interval since the last successful
consolidation. -/
def shouldConsolidate (ci : ConsolidationInputs) : Bool :=
  if !ci.log_nonempty then false
  else if ci.forced then true
  else if decide (ci.now < ci.cooldown_until) then false
  else
    match ci.seconds_since with
    | none => true
    | some s => decide (MEMORY_CONSOLIDATION_INTERVAL_SECONDS ≤ s)

/-- Observable outcome of one spontaneous tick on the buffer state. -/
structure TickOutcome where
  eventsAfter : List GameEvent
  consolidationRan : Bool
  skippedNoPlayers : Bool
deriving DecidableEq, Repr

/-- _god_tick_inner (main.py lines 615-646), up to the point where a
god is consulted: _maybe_consolidate runs first unconditionally; then,
when get_player_status returned None (beacon absent or stale) or the
beacon lists no players, the buffered events are drained with
filter_divine=True and the digest is discarded; otherwise the same
drain feeds the acting god.  status is the result of
event_buffer.get_player_status(), carrying the player names of the
beacon.  In every branch the event buffer ends up empty. -/
def _god_tick_inner (ci : ConsolidationInputs) (status : Option (List String))
    (events : List GameEvent) : TickOutcome :=
  let consolidationRan := shouldConsolidate ci
  match status with
  | none =>
      { eventsAfter := (drain_events events true).2,
        consolidationRan := consolidationRan, skippedNoPlayers := true }
  | some players =>
      if players = [] then
        { eventsAfter := (drain_events events true).2,
          consolidationRan := consolidationRan, skippedNoPlayers := true }
      else
        { eventsAfter := (drain_events events true).2,
          consolidationRan := consolidationRan, skippedNoPlayers := false }

/-! ### server/deep_god.py -/

/-- A tool call as the gods dispatch it: the SDK object carries an id, a
function name and a JSON argument string; json.loads plus the pydantic
field coercions are abstracted into typed payloads, one constructor per
tool name that the dispatcher branches relevant to the claims handle.
The remaining tools (send_message, change_weather, set_time, clear_item,
strike_lightning, play_sound, set_difficulty, assign_mission,
build_schematic) follow the same pattern and are elided; the
build_schematic coordinate arithmetic is modelled by resolvePlacement. -/
inductive ToolArgs
  | do_nothing (reason : String)
  | teleport_player (p : TeleportPlayerParams)
  | give_item (player item : String) (count : Int)
  | give_effect (target_player effect : String) (duration amplifier : Int)
  | summon_mob (mob_type : String) (near_player : Option String)
      (location : String) (count : Int)
  | undo_last_build
deriving DecidableEq, Repr

/-- A tool call with its SDK id. -/
structure ToolCall where
  id : String
  args : ToolArgs
deriving DecidableEq, Repr

/-- _translate_one (commands.py lines 445-513) over the modelled tools:
ok none is the do_nothing skip (and the blocked-prefix skip inside
handlers returning None), ok (some cmds) the produced command dict(s),
error a recorded rejection. -/
def _translate_one (whitelist : List String) :
    ToolArgs → Except String (Option (List CommandDict))
  | .do_nothing _ => .ok none
  | .teleport_player p =>
      (translate_teleport_player whitelist p).map (fun o => o.map (fun c => [c]))
  | .give_item player item count =>
      (translate_give_item whitelist player item count).map (fun o => o.map (fun c => [c]))
  | .give_effect target effect duration amplifier =>
      (translate_give_effect whitelist target effect duration amplifier).map
        (fun o => o.map (fun c => [c]))
  | .summon_mob mob near loc count =>
      (translate_summon_mob whitelist mob near loc count).map (fun l => some l)
  | .undo_last_build => .ok (some [.typed "undo_last_build"])

/-- translate_tool_calls (commands.py lines 385-439): accumulate command
dicts in order and record an error per failed call id.  The errors dict
is modelled as an association list. -/
def translate_tool_calls (whitelist : List String) (tool_calls : List ToolCall) :
    List CommandDict × List (String × String) :=
  tool_calls.foldl
    (fun acc tc =>
      match _translate_one whitelist tc.args with
      | .ok none => acc
      | .ok (some cmds) => (acc.1 ++ cmds, acc.2)
      | .error e => (acc.1, acc.2 ++ [(tc.id, "ERROR: " ++ e)]))
    ([], [])

/-- The LLM chat response message consumed by DeepGod.think: optional
text content plus the tool calls. -/
structure LLMMessage where
  content : Option String
  tool_calls : List ToolCall
deriving DecidableEq, Repr

/-- Shape of the Python value DeepGod.think returns: None on an LLM
failure, a plain list of command dicts, or — because line 332 of
deep_god.py binds the (commands, errors) tuple of translate_tool_calls
without unpacking it — a 2-tuple of the command list and the errors
dict. -/
inductive PyThinkReturn
  | pyNone
  | pyList (cmds : List CommandDict)
  | pyPair (cmds : List CommandDict) (errors : List (String × String))
deriving DecidableEq, Repr

/-- DeepGod.think (deep_god.py lines 270-340) after the LLM call:
response = none models the call raising (think returns None).  With no
tool calls, commands stays the initial [] and is returned.  With tool
calls, commands = translate_tool_calls(tool_calls[:cap], ...) — the
tuple itself, since the assignment does not unpack it (herald_god.py
line 170 and kind_god.py line 490 unpack the same call). -/
def deep_god_think (whitelist : List String) (response : Option LLMMessage) :
    PyThinkReturn :=
  match response with
  | none => .pyNone
  | some message =>
      if message.tool_calls = [] then .pyList []
      else
        let r := translate_tool_calls whitelist
                   (message.tool_calls.take MAX_TOOL_CALLS_PER_RESPONSE)
        .pyPair r.1 r.2

/-! ## Helper lemmas -/

/-- Membership in a line list embeds as a contiguous substring of the
joined output. -/
theorem mem_joinLines_infix : ∀ (ls : List String) (l : String),
    l ∈ ls → l.data <:+: (joinLines ls).data
  | [], _, h => absurd h (List.not_mem_nil _)
  | [x], l, h => by
      rcases List.mem_singleton.mp h with rfl
      exact List.infix_refl _
  | x :: y :: rest, l, h => by
      rcases List.mem_cons.mp h with rfl | h2
      · refine ⟨[], ("\n" ++ joinLines (y :: rest)).data, ?_⟩
        simp [joinLines, String.data_append]
      · have ih := mem_joinLines_infix (y :: rest) l h2
        have hsfx : (joinLines (y :: rest)).data <:+
            (joinLines (x :: y :: rest)).data := by
          show (joinLines (y :: rest)).data <:+ (x ++ "\n" ++ joinLines (y :: rest)).data
          rw [String.data_append]
          exact List.suffix_append _ _
        exact ih.trans hsfx.isInfix

/-- A command string starting with the characters of the word tp passes
the _validate_command allowlist. -/
theorem validate_tp_of_data (c : String) (rest : List Char)
    (h : c.data = 't' :: 'p' :: ' ' :: rest) : _validate_command c = true := by
  unfold _validate_command firstWord
  rw [h]
  rfl

/-- A command string starting with the characters of the word give passes
the _validate_command allowlist. -/
theorem validate_give_of_data (c : String) (rest : List Char)
    (h : c.data = 'g' :: 'i' :: 'v' :: 'e' :: ' ' :: rest) :
    _validate_command c = true := by
  unfold _validate_command firstWord
  rw [h]
  rfl

/-- A command string starting with the characters of the word effect
passes the _validate_command allowlist. -/
theorem validate_effect_of_data (c : String) (rest : List Char)
    (h : c.data = 'e' :: 'f' :: 'f' :: 'e' :: 'c' :: 't' :: ' ' :: rest) :
    _validate_command c = true := by
  unfold _validate_command firstWord
  rw [h]
  rfl

/-- A command string starting with the characters of the word summon
passes the _validate_command allowlist. -/
theorem validate_summon_of_data (c : String) (rest : List Char)
    (h : c.data = 's' :: 'u' :: 'm' :: 'm' :: 'o' :: 'n' :: ' ' :: rest) :
    _validate_command c = true := by
  unfold _validate_command firstWord
  rw [h]
  rfl

/-- Flattening n copies of a singleton yields n copies of the element. -/
theorem flatten_replicate_singleton {α : Type} (n : Nat) (a : α) :
    (List.replicate n [a]).flatten = List.replicate n a := by
  induction n with
  | zero => rfl
  | succ n ih => simp [List.replicate_succ, ih]

/-! ## Claim theorems -/

/-- C1 counterexample: a teleport_player call with x = 31000, outside
the claimed minus 30000 to 30000 range, is not rejected — validation
succeeds and the command dict carrying the out-of-range coordinate
verbatim is produced. -/
theorem teleport_out_of_range_coordinate_not_rejected :
    translate_teleport_player [] ⟨"Steve", 31000, 64, 0⟩ =
      .ok (some (.cmd "tp Steve 31000 64 0" none)) := by rfl

/-- C1 (amended): TeleportPlayerParams carries no coordinate range
validation at all; for every player accepted by _check_player_target and
all integer coordinates whatsoever, translate produces the tp command
containing the given coordinates verbatim — never a rejection and never
a clamped value. -/
theorem teleport_has_no_coordinate_range_check (whitelist : List String)
    (player : String) (x y z : Int)
    (h : _check_player_target player whitelist = .ok ()) :
    translate_teleport_player whitelist ⟨player, x, y, z⟩ =
      .ok (some (.cmd ("tp " ++ player ++ " " ++ toString x ++ " " ++
                       toString y ++ " " ++ toString z) none)) := by
  unfold translate_teleport_player
  rw [h]
  unfold _cmd
  rw [if_pos ?_]
  case _ =>
    exact validate_tp_of_data _ (player.data ++ (" " ++ toString x ++ " " ++
      toString y ++ " " ++ toString z).data) (by simp [String.data_append])

/-- C1 witness: the range-free teleport theorem applied at a concrete
pattern-valid player and coordinates far outside the claimed range. -/
theorem teleport_has_no_coordinate_range_check_witness :
    translate_teleport_player [] ⟨"Notch", 31000, 64, -40000⟩ =
      .ok (some (.cmd ("tp " ++ "Notch" ++ " " ++ toString (31000 : Int) ++ " " ++
                       toString (64 : Int) ++ " " ++ toString (-40000 : Int)) none)) :=
  teleport_has_no_coordinate_range_check [] "Notch" 31000 64 (-40000) (by rfl)

/-- C2: DeepGod.think evaluated at the failing input — an LLM response
containing a tool call.  Line 332 of deep_god.py binds the
(commands, errors) pair returned by translate_tool_calls without
unpacking it, so the think call returns a 2-tuple rather than the list
of command dicts its own annotation, the spec, and the unpacking
call sites in herald_god.py and kind_god.py prescribe.  The None and
no-tool-call cases behave as specified. -/
theorem deep_god_think_shape_on_tool_calls :
    deep_god_think [] (some ⟨none, [⟨"call_1", .do_nothing "all is well"⟩]⟩) =
      .pyPair [] [] ∧
    deep_god_think [] none = .pyNone ∧
    deep_god_think [] (some ⟨some "the deep is quiet", []⟩) = .pyList [] :=
  ⟨rfl, rfl, rfl⟩

/-- C3 counterexample: with no player status and one buffered non-divine
chat event, the spontaneous tick empties the buffer — the accumulated
events are not left unchanged as the claim requires. -/
theorem idle_tick_drains_nonempty_buffer :
    (_god_tick_inner ⟨true, false, 0, 0, some 20000⟩ none
      [⟨"chat", "hello there", "Steve"⟩]).eventsAfter = [] ∧
    [(⟨"chat", "hello there", "Steve"⟩ : GameEvent)] ≠ [] := by
  exact ⟨rfl, by decide⟩

/-- C3 (amended): when no players are online (status beacon absent,
stale, or listing nobody), the spontaneous tick drains and discards all
buffered events — the buffer is left empty, the tick is marked as the
idle skip — while memory consolidation still runs on its wall-clock
schedule: the consolidation decision is identical under every
player-status value. -/
theorem idle_tick_discards_events_and_consolidates_on_schedule
    (ci : ConsolidationInputs) (status : Option (List String))
    (events : List GameEvent) (h : status.getD [] = []) :
    (_god_tick_inner ci status events).eventsAfter = [] ∧
    (_god_tick_inner ci status events).skippedNoPlayers = true ∧
    ∀ other : Option (List String),
      (_god_tick_inner ci status events).consolidationRan =
        (_god_tick_inner ci other events).consolidationRan := by
  have hall : ∀ st : Option (List String),
      (_god_tick_inner ci st events).eventsAfter = [] ∧
      (_god_tick_inner ci st events).consolidationRan = shouldConsolidate ci := by
    intro st
    rcases st with - | players
    · exact ⟨rfl, rfl⟩
    · rcases players with - | ⟨p, ps⟩
      · exact ⟨rfl, rfl⟩
      · exact ⟨rfl, rfl⟩
  refine ⟨(hall status).1, ?_, ?_⟩
  · rcases status with - | players
    · rfl
    · have hp : players = [] := by simpa using h
      subst hp
      rfl
  · intro other
    rw [(hall status).2, (hall other).2]

/-- C3 witness: the idle-tick theorem applied at a stale beacon and a
concrete buffered event. -/
theorem idle_tick_discards_events_and_consolidates_on_schedule_witness :
    (_god_tick_inner ⟨true, true, 500, 0, none⟩ (some [])
      [⟨"block_break", "", "Alex"⟩]).eventsAfter = [] :=
  (idle_tick_discards_events_and_consolidates_on_schedule
    ⟨true, true, 500, 0, none⟩ (some []) [⟨"block_break", "", "Alex"⟩] rfl).1

/-- C4: starting from attempts = 0 with the request dequeued before each
call (so the queue is empty when requeue runs), the first four requeue
calls increment attempts, push the request to the tail and return true;
the fifth call reaches MAX_ATTEMPTS = 5, returns false and leaves the
queue empty — the request is not silently retained. -/
theorem requeue_four_retries_then_abandon :
    requeue [] ⟨"Steve", "god help", "prayer", 0⟩ =
      (true, [⟨"Steve", "god help", "prayer", 1⟩], ⟨"Steve", "god help", "prayer", 1⟩) ∧
    requeue [] ⟨"Steve", "god help", "prayer", 1⟩ =
      (true, [⟨"Steve", "god help", "prayer", 2⟩], ⟨"Steve", "god help", "prayer", 2⟩) ∧
    requeue [] ⟨"Steve", "god help", "prayer", 2⟩ =
      (true, [⟨"Steve", "god help", "prayer", 3⟩], ⟨"Steve", "god help", "prayer", 3⟩) ∧
    requeue [] ⟨"Steve", "god help", "prayer", 3⟩ =
      (true, [⟨"Steve", "god help", "prayer", 4⟩], ⟨"Steve", "god help", "prayer", 4⟩) ∧
    requeue [] ⟨"Steve", "god help", "prayer", 4⟩ =
      (false, [], ⟨"Steve", "god help", "prayer", 5⟩) ∧
    MAX_ATTEMPTS = 5 :=
  ⟨rfl, rfl, rfl, rfl, rfl, rfl⟩

/-- C5 counterexample: format_for_prompt on the empty record list
returns the empty string, not a non-empty no-memories-yet marker. -/
theorem format_for_prompt_empty_gives_empty_string :
    format_for_prompt [] = "" := rfl

/-- C5 (amended): the empty state renders as the empty string (memory.py
lines 118-119), not as a marker; with non-empty records the output
contains each record's content as a bulleted line inside the memories
block. -/
theorem format_for_prompt_empty_and_bullets :
    format_for_prompt [] = "" ∧
    ∀ (ms : List MemEntry) (m : MemEntry), m ∈ ms →
      ("- " ++ entryContent m).data <:+: (format_for_prompt ms).data := by
  refine ⟨rfl, ?_⟩
  intro ms m hm
  have hne : ms ≠ [] := by rintro rfl; exact List.not_mem_nil _ hm
  have hmem : ("- " ++ entryContent m) ∈ ms.map (fun m => "- " ++ entryContent m) :=
    List.mem_map_of_mem _ hm
  have h1 := mem_joinLines_infix _ _ hmem
  unfold format_for_prompt
  rw [if_neg hne]
  rw [String.data_append, String.data_append]
  exact (h1.trans (List.suffix_append _ _).isInfix).trans (List.prefix_append _ _).isInfix

/-- C5 witness: the bullet line of a concrete record is a substring of
the rendered block. -/
theorem format_for_prompt_empty_and_bullets_witness :
    ("- " ++ entryContent (.record ⟨"t0", "t0", "Alex prays often"⟩)).data <:+:
      (format_for_prompt [.record ⟨"t0", "t0", "Alex prays often"⟩]).data :=
  format_for_prompt_empty_and_bullets.2 [.record ⟨"t0", "t0", "Alex prays often"⟩]
    (.record ⟨"t0", "t0", "Alex prays often"⟩) (List.mem_singleton.mpr rfl)

/-- C6: counts and durations clamp instead of rejecting.  For otherwise
valid give_item, give_effect and summon_mob calls, the validated command
is still produced and carries the clamped value; integer counts outside
1..64 (items), durations outside 1..120 (effects) and counts outside
1..5 (summons) land exactly on the violated boundary. -/
theorem counts_and_durations_clamped_not_rejected :
    (∀ (wl : List String) (player item : String) (c : Int),
      itemNameMatches (normalizeId item) = true →
      normalizeId item ∉ BLOCKED_ITEMS →
      _check_player_target player wl = .ok () →
      (translate_give_item wl player item c =
        .ok (some (.cmd ("give " ++ player ++ " minecraft:" ++ normalizeId item ++
                         " " ++ toString (clamp_count_give_item c)) none)) ∧
       (c < 1 → clamp_count_give_item c = 1) ∧
       (64 < c → clamp_count_give_item c = 64))) ∧
    (∀ (wl : List String) (target effect : String) (d a : Int),
      strLower effect ∈ VALID_EFFECTS →
      _check_player_target target wl = .ok () →
      (translate_give_effect wl target effect d a =
        .ok (some (.cmd ("effect give " ++ target ++ " minecraft:" ++ strLower effect ++
                         " " ++ toString (clamp_duration_give_effect d) ++
                         " " ++ toString (clamp_amplifier a)) none)) ∧
       (d < 1 → clamp_duration_give_effect d = 1) ∧
       (120 < d → clamp_duration_give_effect d = 120))) ∧
    (∀ (wl : List String) (mob loc : String) (c : Int),
      normalizeId mob ∈ VALID_MOBS →
      coordMatches loc = true →
      (translate_summon_mob wl mob none loc c =
        .ok (List.replicate (clamp_count_summon c).toNat
              (.cmd ("summon minecraft:" ++ normalizeId mob ++ " " ++ loc) none)) ∧
       (c < 1 → clamp_count_summon c = 1) ∧
       (5 < c → clamp_count_summon c = 5))) := by
  refine ⟨?_, ?_, ?_⟩
  · intro wl player item c hname hblock hok
    refine ⟨?_, ?_, ?_⟩
    · unfold translate_give_item
      rw [if_neg (not_not_intro hname), if_neg (by simpa using hblock), hok]
      unfold _cmd
      rw [if_pos (validate_give_of_data _ (player.data ++ (" minecraft:" ++
            normalizeId item ++ " " ++ toString (clamp_count_give_item c)).data)
            (by simp [String.data_append]))]
    · intro hc; unfold clamp_count_give_item clampLow1; omega
    · intro hc; unfold clamp_count_give_item clampLow1; omega
  · intro wl target effect d a heff hok
    refine ⟨?_, ?_, ?_⟩
    · unfold translate_give_effect
      rw [if_neg (not_not_intro heff), hok]
      unfold _cmd
      rw [if_pos (validate_effect_of_data _ (("give " ++ target ++ " minecraft:" ++
            strLower effect ++ " " ++ toString (clamp_duration_give_effect d) ++
            " " ++ toString (clamp_amplifier a)).data)
            (by simp [String.data_append]))]
    · intro hd; unfold clamp_duration_give_effect clampLow1; omega
    · intro hd; unfold clamp_duration_give_effect clampLow1; omega
  · intro wl mob loc c hmob hloc
    refine ⟨?_, ?_, ?_⟩
    · unfold translate_summon_mob
      rw [if_neg (not_not_intro hmob), if_neg (not_not_intro hloc)]
      unfold _cmd
      rw [if_pos (validate_summon_of_data _ (("minecraft:" ++ normalizeId mob ++
            " " ++ loc).data) (by simp [String.data_append]))]
      simp [Option.toList, flatten_replicate_singleton]
    · intro hc; unfold clamp_count_summon clampLow1; omega
    · intro hc; unfold clamp_count_summon clampLow1; omega

/-- C6 witness: a give_item call with count 100 produces the command
with the clamped boundary value 64. -/
theorem counts_and_durations_clamped_not_rejected_witness :
    (translate_give_item [] "@a" "Minecraft:DIAMOND" 100 =
      .ok (some (.cmd ("give " ++ "@a" ++ " minecraft:" ++
                       normalizeId "Minecraft:DIAMOND" ++ " " ++
                       toString (clamp_count_give_item 100)) none))) ∧
    clamp_count_give_item 100 = 64 :=
  ⟨(counts_and_durations_clamped_not_rejected.1 [] "@a" "Minecraft:DIAMOND" 100
      (by decide) (by decide) (by rfl)).1,
   (counts_and_durations_clamped_not_rejected.1 [] "@a" "Minecraft:DIAMOND" 100
      (by decide) (by decide) (by rfl)).2.2 (by decide)⟩

/-- C7: with in_front = false, direction NE and distance near (10
blocks), the resolved placement is (px + 7, py, pz - 7) — both
horizontal offsets have magnitude int(10 * 0.7) = 7 with the NE quadrant
signs — while an in_front resolution facing S at (100, 64, 200) with
distance near scales by the full 10 blocks to (100, 64, 210). -/
theorem schematic_placement_diagonal_and_cardinal :
    (∀ (px py pz : Int) (facing : String),
      resolvePlacement false "NE" "near" ⟨px, py, pz, facing⟩ = (px + 7, py, pz - 7)) ∧
    (∀ direction : String,
      resolvePlacement true direction "near" ⟨100, 64, 200, "S"⟩ = (100, 64, 210)) := by
  constructor
  · intro px py pz facing
    unfold resolvePlacement
    norm_num [_DIRECTION_OFFSETS, _DISTANCE_BLOCKS, diagBlocks]
    omega
  · intro direction
    rfl

/-- C8: after the update step of a successful consolidation the stored
count never exceeds MEMORY_MAX_ENTRIES, every stored entry is a record
stamped updated = now, an entry whose content is byte-identical to some
old record keeps that old record's created timestamp (the last such
record, matching the dict build), and an entry with new content gets
created = now. -/
theorem consolidate_bounded_and_preserves_created
    (memories : List MemEntry) (memory_strings : List String) (now : String) :
    (consolidateUpdate memories memory_strings now).length ≤ MEMORY_MAX_ENTRIES ∧
    ∀ e ∈ consolidateUpdate memories memory_strings now,
      ∃ r : MemRecord, e = .record r ∧ r.updated = now ∧
        (lastOldRecord memories r.content = none → r.created = now) ∧
        (∀ old : MemRecord, lastOldRecord memories r.content = some old →
          r.created = old.created) := by
  constructor
  · calc (consolidateUpdate memories memory_strings now).length
        ≤ (memory_strings.take MEMORY_MAX_ENTRIES).length :=
          List.length_filterMap_le _ _
      _ ≤ MEMORY_MAX_ENTRIES := List.length_take_le _ _
  · intro e he
    unfold consolidateUpdate at he
    obtain ⟨s, hs, hfs⟩ := List.mem_filterMap.mp he
    by_cases hb : pyStrip s = ""
    · rw [if_pos hb] at hfs; exact Option.noConfusion hfs
    · rw [if_neg hb] at hfs
      obtain rfl := Option.some.inj hfs
      refine ⟨_, rfl, rfl, ?_, ?_⟩
      · intro hnone
        show carriedCreated memories now (pyTake (pyStrip s) 500) = now
        unfold carriedCreated
        rw [hnone]
        rfl
      · intro old hold
        show carriedCreated memories now (pyTake (pyStrip s) 500) = old.created
        unfold carriedCreated
        rw [hold]
        rfl

/-- C8 witness: consolidating one unchanged and one new string keeps the
old created stamp on the unchanged entry, shown by instantiating the
theorem at the unchanged entry of the computed result. -/
theorem consolidate_bounded_and_preserves_created_witness :
    ∃ r : MemRecord, (MemEntry.record ⟨"t0", "t1", "Steve builds"⟩) = .record r ∧
      r.updated = "t1" ∧
      (lastOldRecord [.record ⟨"t0", "t0", "Steve builds"⟩] r.content = none →
        r.created = "t1") ∧
      (∀ old : MemRecord,
        lastOldRecord [.record ⟨"t0", "t0", "Steve builds"⟩] r.content = some old →
          r.created = old.created) :=
  (consolidate_bounded_and_preserves_created [.record ⟨"t0", "t0", "Steve builds"⟩]
      ["Steve builds", "Alex prays"] "t1").2
    (MemEntry.record ⟨"t0", "t1", "Steve builds"⟩) (by decide)

/-- C9: _check_player_target raises exactly when the target is neither
an allowed selector nor acceptable as a name — the name either fails the
3-16 character pattern or, when the whitelist is non-empty, is missing
from it case-insensitively; consequently with an empty whitelist (the
fail-open result of get_whitelist_names on a missing or malformed file)
every pattern-valid name passes with no membership check. -/
theorem check_player_target_raises_iff :
    (∀ (target : String) (whitelist : List String),
      (∃ msg, _check_player_target target whitelist = .error msg) ↔
        (target ∉ ALLOWED_SELECTORS ∧
         (playerNameMatches target = false ∨
          (whitelist ≠ [] ∧ strLower target ∉ whitelist.map strLower)))) ∧
    (∀ target : String, playerNameMatches target = true →
      _check_player_target target [] = .ok ()) := by
  constructor
  · intro target whitelist
    unfold _check_player_target
    by_cases h1 : target ∈ ALLOWED_SELECTORS
    · rw [if_pos h1]
      simp [h1]
    · rw [if_neg h1]
      by_cases h2 : playerNameMatches target = true
      · rw [if_neg (not_not_intro h2)]
        by_cases h3 : whitelist ≠ []
        · rw [if_pos h3]
          by_cases h4 : strLower target ∉ whitelist.map strLower
          · rw [if_pos h4]
            exact iff_of_true ⟨_, rfl⟩ ⟨h1, Or.inr ⟨h3, h4⟩⟩
          · rw [if_neg h4]
            refine iff_of_false ?_ ?_
            · rintro ⟨msg, hmsg⟩; exact Except.noConfusion hmsg
            · rintro ⟨-, hbad | ⟨-, hmem⟩⟩
              · rw [h2] at hbad; exact Bool.noConfusion hbad
              · exact h4 hmem
        · rw [if_neg h3]
          refine iff_of_false ?_ ?_
          · rintro ⟨msg, hmsg⟩; exact Except.noConfusion hmsg
          · rintro ⟨-, hbad | ⟨hwl, -⟩⟩
            · rw [h2] at hbad; exact Bool.noConfusion hbad
            · exact h3 hwl
      · rw [if_pos h2]
        exact iff_of_true ⟨_, rfl⟩ ⟨h1, Or.inl (by simpa using h2)⟩
  · intro target h
    unfold _check_player_target
    by_cases h1 : target ∈ ALLOWED_SELECTORS
    · rw [if_pos h1]
    · rw [if_neg h1, if_neg (not_not_intro h), if_neg (by simp)]

/-- C9 witness: with an empty whitelist a pattern-valid name sails
through with no membership check. -/
theorem check_player_target_raises_iff_witness :
    _check_player_target "Herobrine" [] = .ok () :=
  check_player_target_raises_iff.2 "Herobrine" (by decide)

/-- C10: the boolean divine-request gate and the priority-ordered
classifier agree on every message — is_divine_request returns true
exactly when classify_divine_request returns a category. -/
theorem is_divine_request_iff_classified (message : String) :
    is_divine_request message = (classify_divine_request message).isSome := by
  unfold is_divine_request classify_divine_request _ALL_DIVINE_KEYWORDS
  simp only [List.any_append]
  cases hr : REMEMBER_KEYWORDS.any (fun kw => containsKw (strLower message) kw) <;>
  cases hd : DIG_KEYWORDS.any (fun kw => containsKw (strLower message) kw) <;>
  cases hp : PRAYER_KEYWORDS.any (fun kw => containsKw (strLower message) kw) <;>
  cases hh : HERALD_KEYWORDS.any (fun kw => containsKw (strLower message) kw) <;>
  simp [hr, hd, hp, hh]

end MinecraftGod
